import Mathlib

/-!
Shallow embedding of the Solana RPC gateway (src/main.py) and proofs about it.

Upstream JSON values are modelled by the inductive `Json`; Python dictionary
and sequence operations used by the source (`dict.get`, truthiness, `or`,
`len`, iteration, indexing, slicing, `in`) are modelled by explicit functions
returning `Except PyErr _`, where `PyErr` covers both the `HTTPException`
values raised by `rpc_call` and the ordinary Python exceptions
(`TypeError`, `AttributeError`, ...) that propagate uncaught.
Numeric results are modelled with `Int`/`Rat`; `round(x, n)` is modelled by
`pyRound`, decimal round-half-to-even on rationals.
-/

set_option autoImplicit false

/-- JSON values as delivered by the upstream RPC endpoint. -/
inductive Json where
  | null
  | bool (b : Bool)
  | num (n : Int)
  | str (s : String)
  | arr (elems : List Json)
  | obj (fields : List (String × Json))

/-- Errors: `HTTPException` values raised by the gateway (`transport`,
`rpcError` with status 502, `notFound` with status 404) and ordinary Python
exceptions that escape to the framework. -/
inductive PyErr where
  | transport (msg : String)
  | rpcError (payload : Json)
  | notFound
  | typeError
  | attrError
  | keyError
  | indexError

/-- Whether the error is an `HTTPException` (caught by `except HTTPException`). -/
def PyErr.isHttp : PyErr → Bool
  | .transport _ => true
  | .rpcError _ => true
  | .notFound => true
  | _ => false

/-- Python truthiness of a JSON value. -/
def pyTruthy : Json → Bool
  | .null => false
  | .bool b => b
  | .num n => n != 0
  | .str s => !s.isEmpty
  | .arr xs => !xs.isEmpty
  | .obj fs => !fs.isEmpty

/-- Python `a or b` on JSON values. -/
def pyOr (a b : Json) : Json := if pyTruthy a then a else b

/-- First binding of a key in a field list (Python dicts have unique keys). -/
def lookupField : List (String × Json) → String → Option Json
  | [], _ => none
  | (k, v) :: rest, key => if k = key then some v else lookupField rest key

/-- Python `x.get(key, default)`: raises `AttributeError` unless `x` is a dict. -/
def Json.getD : Json → String → Json → Except PyErr Json
  | .obj fs, key, dflt => .ok ((lookupField fs key).getD dflt)
  | _, _, _ => .error .attrError

/-- Python `x.get(key)` with no default (`None` when the key is missing). -/
def Json.pyGet (j : Json) (key : String) : Except PyErr Json :=
  Json.getD j key Json.null

/-- Whether the value is a JSON object (Python dict). -/
def Json.isObj : Json → Bool
  | .obj _ => true
  | _ => false

/-- Whether the value is JSON null (Python `x is None`). -/
def jIsNull : Json → Bool
  | .null => true
  | _ => false

/-- Coercion of a JSON value to a Python integer for arithmetic: numbers are
themselves, booleans are 0/1, everything else raises `TypeError`. -/
def jToInt : Json → Except PyErr Int
  | .num n => .ok n
  | .bool b => .ok (if b then 1 else 0)
  | _ => .error .typeError

/-- Python `len(x)` for sequences, strings and dicts. -/
def pyLen : Json → Except PyErr Nat
  | .arr xs => .ok xs.length
  | .obj fs => .ok fs.length
  | .str s => .ok s.length
  | _ => .error .typeError

/-- Python iteration `for s in x`: lists yield elements, dicts yield keys,
strings yield one-character strings. -/
def pyIter : Json → Except PyErr (List Json)
  | .arr xs => .ok xs
  | .obj fs => .ok (fs.map (fun kv => Json.str kv.1))
  | .str s => .ok (s.data.map (fun c => Json.str (String.singleton c)))
  | _ => .error .typeError

/-- Whether a JSON value equals the string `key` (used by `in` on lists). -/
def jEqStr (j : Json) (key : String) : Bool :=
  match j with
  | .str s => s = key
  | _ => false

/-- Python `key in x`: key membership for dicts, element membership for
lists, substring test for strings. -/
def pyContains (key : String) : Json → Except PyErr Bool
  | .obj fs => .ok (fs.any (fun kv => kv.1 = key))
  | .arr xs => .ok (xs.any (fun j => jEqStr j key))
  | .str s => .ok (1 < (s.splitOn key).length)
  | _ => .error .typeError

/-- Python `x[key]` subscription with a string key. -/
def pyGetItemStr (j : Json) (key : String) : Except PyErr Json :=
  match j with
  | .obj fs =>
    match lookupField fs key with
    | some v => .ok v
    | none => .error .keyError
  | _ => .error .typeError

/-- Python `x[0]`: head of a list, first character of a string; an integer
subscript on a string-keyed dict raises `KeyError`. -/
def pyIndex0 : Json → Except PyErr Json
  | .arr [] => .error .indexError
  | .arr (x :: _) => .ok x
  | .str s =>
    match s.data with
    | [] => .error .indexError
    | c :: _ => .ok (.str (String.singleton c))
  | .obj _ => .error .keyError
  | _ => .error .typeError

/-- Python `x[:n]` followed by iteration, as in `for s in sigs[:limit]`. -/
def pySliceTake (j : Json) (n : Nat) : Except PyErr (List Json) :=
  match j with
  | .arr xs => .ok (xs.take n)
  | .str s => .ok ((s.data.take n).map (fun c => Json.str (String.singleton c)))
  | _ => .error .typeError

/-- Model of `str.strip()`: drop leading and trailing whitespace. -/
def pyStrip (s : String) : String :=
  ⟨((s.data.dropWhile Char.isWhitespace).reverse.dropWhile Char.isWhitespace).reverse⟩

/-- Model of `str.isdigit` on the ASCII strings of interest: non-empty and
made of decimal digits only. -/
def pyIsDigitStr (s : String) : Bool :=
  !s.data.isEmpty && s.data.all Char.isDigit

/-- Python `int(s)` on a decimal-digit string. -/
def strToNat (s : String) : Nat :=
  s.data.foldl (fun acc c => acc * 10 + (c.toNat - 48)) 0

/-- Python `len(s)` on a string. -/
def strLen (s : String) : Nat := s.data.length

/-- Round-half-to-even to an integer (the rounding used by Python `round`).
The floor of `q` is computed as the floor division of its numerator by its
denominator, keeping the definition kernel-computable. -/
def rhe (q : Rat) : Int :=
  let f := q.num.fdiv (q.den : Int)
  let r := q - (f : Rat)
  if r < 1 / 2 then f
  else if 1 / 2 < r then f + 1
  else if f % 2 = 0 then f else f + 1

/-- Powers of ten as rationals, kept kernel-computable. -/
def pow10 : Nat → Rat
  | 0 => 1
  | n + 1 => 10 * pow10 n

/-- Python `round(q, n)`: round-half-to-even at `n` decimal places. -/
def pyRound (q : Rat) (n : Nat) : Rat :=
  (rhe (q * pow10 n) : Rat) / pow10 n

/-! ## RPC Client (src/main.py, `rpc_call`) -/

/-- Outcome of the single outbound POST performed by `rpc_call`: either the
request itself fails (connection error, timeout, or non-2xx status, which
`raise_for_status` turns into a `requests.RequestException`), or a 2xx
response arrives whose body parses as the JSON value `body`. -/
inductive HttpOutcome where
  | requestFailure (msg : String)
  | success (body : Json)

/-- Embedding of `rpc_call` (src/main.py lines 21-34), as a function of the
outcome of its one HTTP round trip. -/
def rpc_call : HttpOutcome → Except PyErr Json
  | .requestFailure msg => .error (.transport msg)
  | .success data =>
    match pyContains "error" data with
    | .error e => .error e
    | .ok true =>
      match pyGetItemStr data "error" with
      | .error e => .error e
      | .ok err => .error (.rpcError err)
    | .ok false => Json.getD data "result" Json.null

/-! ## Transaction Labeler (src/main.py, `_program_label`) -/

/-- The program-identifier extraction inside `_program_label`: first
instruction of the message, field `programId`, falling back (via Python `or`)
to `programIdIndex`; yields a string only when `isinstance(prog, str)`. -/
def progOfInstr (tx : Json) : Except PyErr (Option String) :=
  match Json.getD tx "transaction" (Json.obj []) with
  | .error e => .error e
  | .ok transaction =>
    match Json.getD transaction "message" (Json.obj []) with
    | .error e => .error e
    | .ok message =>
      match Json.getD message "instructions" (Json.arr []) with
      | .error e => .error e
      | .ok instructions =>
        if pyTruthy instructions then
          match pyIndex0 instructions with
          | .error e => .error e
          | .ok first =>
            match Json.pyGet first "programId" with
            | .error e => .error e
            | .ok pid =>
              match (if pyTruthy pid then .ok pid else Json.pyGet first "programIdIndex" : Except PyErr Json) with
              | .error e => .error e
              | .ok prog =>
                match prog with
                | .str s => .ok (some s)
                | _ => .ok none
        else .ok none

/-- The status fallback inside `_program_label`:
`"Success"` when `tx.get("meta", {}).get("err") is None`, else `"Error"`. -/
def statusOf (tx : Json) : Except PyErr String :=
  match Json.getD tx "meta" (Json.obj []) with
  | .error e => .error e
  | .ok meta =>
    match Json.pyGet meta "err" with
    | .error e => .error e
    | .ok err => .ok (if jIsNull err then "Success" else "Error")

/-- Body of the `try` block of `_program_label`. -/
def labelBody (tx : Json) : Except PyErr String :=
  match progOfInstr tx with
  | .error e => .error e
  | .ok (some s) => .ok s
  | .ok none => statusOf tx

/-- Embedding of `_program_label` (src/main.py lines 117-130): any exception
inside the body is caught and turned into the fallback label. -/
def _program_label (tx : Json) : String :=
  match labelBody tx with
  | .ok s => s
  | .error _ => "Transaction"

/-! ## Stats Aggregator (src/main.py, `solana_stats`) -/

/-- Results of the five sequential `rpc_call` invocations made by
`solana_stats`, in source order (`getSlot`, `getRecentPerformanceSamples`,
`getVoteAccounts`, and `getBlockHeight` twice). -/
structure StatsEnv where
  getSlot : Except PyErr Json
  samplesResp : Except PyErr Json
  voteAccountsResp : Except PyErr Json
  heightResp1 : Except PyErr Json
  heightResp2 : Except PyErr Json

/-- The JSON structure returned by the stats route. -/
structure StatsResult where
  tps : Option Rat
  slot : Json
  validators : Nat
  recentBlocks : Int

/-- Python `sum(s.get(key, 0) for s in xs)`: left-to-right, first bad
element raises. -/
def sumField : List Json → String → Except PyErr Int
  | [], _ => .ok 0
  | s :: rest, key =>
    match Json.getD s key (Json.num 0) with
    | .error e => .error e
    | .ok v =>
      match jToInt v with
      | .error e => .error e
      | .ok n =>
        match sumField rest key with
        | .error e => .error e
        | .ok m => .ok (n + m)

/-- The TPS computation of `solana_stats` (src/main.py lines 90-96), as a
function of the `getRecentPerformanceSamples` result:
`samples or []`, then, when the sample list is truthy, sum the transaction
counts and the sample periods and return `round(tx / secs, 2)` unless the
summed period is zero. -/
def tpsOf (samplesJ : Json) : Except PyErr (Option Rat) :=
  let samples := pyOr samplesJ (Json.arr [])
  if pyTruthy samples then
    match pyIter samples with
    | .error e => .error e
    | .ok xs =>
      match sumField xs "numTransactions" with
      | .error e => .error e
      | .ok tx =>
        match sumField xs "samplePeriodSecs" with
        | .error e => .error e
        | .ok secs =>
          if secs ≠ 0 then .ok (some (pyRound ((tx : Rat) / (secs : Rat)) 2))
          else .ok none
  else .ok none

/-- The block-height delta of `solana_stats` (src/main.py lines 104-107):
`max(0, (height2 or height1) - (height1 or 0))` on the two `getBlockHeight`
results, with `TypeError` when a subtraction operand is not a number. -/
def recentBlocksOf (height1 height2 : Json) : Except PyErr Int :=
  match jToInt (pyOr height2 height1) with
  | .error e => .error e
  | .ok x =>
    match jToInt (pyOr height1 (Json.num 0)) with
    | .error e => .error e
    | .ok y => .ok (max 0 (x - y))

/-- Embedding of the `solana_stats` route handler (src/main.py lines 84-114). -/
def solana_stats (env : StatsEnv) : Except PyErr StatsResult :=
  match env.getSlot with
  | .error e => .error e
  | .ok slot =>
    match env.samplesResp with
    | .error e => .error e
    | .ok samplesJ =>
      match tpsOf samplesJ with
      | .error e => .error e
      | .ok tps =>
        match env.voteAccountsResp with
        | .error e => .error e
        | .ok vaJ =>
          let va := pyOr vaJ (Json.obj [])
          match Json.getD va "current" (Json.arr []) with
          | .error e => .error e
          | .ok current =>
            match Json.getD va "delinquent" (Json.arr []) with
            | .error e => .error e
            | .ok delinquent =>
              match pyLen current with
              | .error e => .error e
              | .ok c =>
                match pyLen delinquent with
                | .error e => .error e
                | .ok d =>
                  match env.heightResp1 with
                  | .error e => .error e
                  | .ok h1 =>
                    match env.heightResp2 with
                    | .error e => .error e
                    | .ok h2 =>
                      match recentBlocksOf h1 h2 with
                      | .error e => .error e
                      | .ok rb => .ok ⟨tps, slot, c + d, rb⟩

/-! ## Transaction Feed Builder (src/main.py, `recent_transactions`) -/

/-- The `feeInSol` computation of the feed (src/main.py line 149):
`round(fee_lamports / 1_000_000_000, 9)`. -/
def fee_sol_feed (feeLamports : Int) : Rat :=
  pyRound ((feeLamports : Rat) / 1000000000) 9

/-- Upstream responses seen by `recent_transactions`: the result of the
`getSignaturesForAddress` call, and the result of `getTransaction` as a
function of the signature value passed to it. -/
structure FeedEnv where
  signaturesResp : Except PyErr Json
  getTransaction : Json → Except PyErr Json

/-- One item of the feed response (`{"sig", "slot", "fee", "type"}`). -/
structure FeedItem where
  sig : Json
  slot : Json
  fee : Rat
  txType : String

/-- One iteration of the feed loop (src/main.py lines 143-155): extract the
signature, fetch the transaction, and when the result is truthy build the
item from the meta fee, the slot and the program label; a falsy result
yields no item. -/
def feedStep (env : FeedEnv) (s : Json) : Except PyErr (Option FeedItem) :=
  match Json.pyGet s "signature" with
  | .error e => .error e
  | .ok signature =>
    match env.getTransaction signature with
    | .error e => .error e
    | .ok tx =>
      if pyTruthy tx then
        match Json.pyGet tx "meta" with
        | .error e => .error e
        | .ok meta0 =>
          match Json.getD (pyOr meta0 (Json.obj [])) "fee" (Json.num 0) with
          | .error e => .error e
          | .ok feeJ =>
            match jToInt feeJ with
            | .error e => .error e
            | .ok feeI =>
              match Json.pyGet tx "slot" with
              | .error e => .error e
              | .ok slotJ =>
                .ok (some ⟨signature, slotJ, fee_sol_feed feeI, _program_label tx⟩)
      else .ok none

/-- The `for s in sigs[:limit]` loop of `recent_transactions`, accumulating
items in listing order and skipping iterations that produce none. -/
def feedLoop (env : FeedEnv) : List Json → Except PyErr (List FeedItem)
  | [] => .ok []
  | s :: rest =>
    match feedStep env s with
    | .error e => .error e
    | .ok none => feedLoop env rest
    | .ok (some item) =>
      match feedLoop env rest with
      | .error e => .error e
      | .ok items => .ok (item :: items)

/-- Embedding of the `recent_transactions` route handler
(src/main.py lines 133-157): `sigs = listing or []`; an empty (falsy) value
returns the empty item list at once; otherwise the loop runs over
`sigs[:limit]`. -/
def recent_transactions (env : FeedEnv) (limit : Nat) : Except PyErr (List FeedItem) :=
  match env.signaturesResp with
  | .error e => .error e
  | .ok sigsJ0 =>
    let sigsJ := pyOr sigsJ0 (Json.arr [])
    if pyTruthy sigsJ then
      match pySliceTake sigsJ limit with
      | .error e => .error e
      | .ok front => feedLoop env front
    else .ok []

/-! ## Search Classifier (src/main.py, `search`) -/

/-- The `feeInSol` computation of the search signature branch
(src/main.py line 181): `fee / 1_000_000_000` with no rounding. -/
def fee_sol_search (feeLamports : Int) : Rat :=
  (feeLamports : Rat) / 1000000000

/-- Upstream `rpc_call` results seen by `search`, per method and argument. -/
structure SearchEnv where
  getBlock : Nat → Except PyErr Json
  getTransaction : String → Except PyErr Json
  getBalance : String → Except PyErr Json
  getSignaturesForAddress : String → Except PyErr Json

/-- The tagged union returned by `search`: `{"kind": "slot" | "signature" |
"address", ...}`. -/
inductive SearchResult where
  | slotR (slot : Nat) (txCount : Nat)
  | signatureR (signature : String) (slot : Json) (fee : Rat) (ok : Bool)
  | addressR (address : String) (balance : Rat) (signatures : List Json)

/-- Model of `try: x = rpc_call(...) except HTTPException: x = None`. -/
def catchHttp (r : Except PyErr Json) : Except PyErr Json :=
  match r with
  | .ok v => .ok v
  | .error e => if e.isHttp then .ok Json.null else .error e

/-- The slot branch of `search` (src/main.py lines 166-172): block fetch
failures become an absent block; the transaction count is
`len(block.get("transactions", []))` when the block is truthy, else 0. -/
def slotSearch (env : SearchEnv) (qs : String) : Except PyErr SearchResult :=
  let slot := strToNat qs
  match catchHttp (env.getBlock slot) with
  | .error e => .error e
  | .ok block =>
    if pyTruthy block then
      match Json.getD block "transactions" (Json.arr []) with
      | .error e => .error e
      | .ok txs =>
        match pyLen txs with
        | .error e => .error e
        | .ok n => .ok (.slotR slot n)
    else .ok (.slotR slot 0)

/-- The signature result built at src/main.py lines 181-182 from a truthy
`getTransaction` result. -/
def sigBuild (qs : String) (tx : Json) : Except PyErr SearchResult :=
  match Json.pyGet tx "meta" with
  | .error e => .error e
  | .ok meta0 =>
    match Json.getD (pyOr meta0 (Json.obj [])) "fee" (Json.num 0) with
    | .error e => .error e
    | .ok feeJ =>
      match jToInt feeJ with
      | .error e => .error e
      | .ok feeI =>
        match Json.pyGet tx "slot" with
        | .error e => .error e
        | .ok slotJ =>
          match Json.pyGet tx "meta" with
          | .error e => .error e
          | .ok meta1 =>
            match Json.pyGet (pyOr meta1 (Json.obj [])) "err" with
            | .error e => .error e
            | .ok errJ =>
              .ok (.signatureR qs slotJ (fee_sol_search feeI) (jIsNull errJ))

/-- The list comprehension `[s.get("signature") for s in (sigs or [])]`. -/
def listGetSigs : List Json → Except PyErr (List Json)
  | [] => .ok []
  | s :: rest =>
    match Json.pyGet s "signature" with
    | .error e => .error e
    | .ok v =>
      match listGetSigs rest with
      | .error e => .error e
      | .ok vs => .ok (v :: vs)

/-- Body of the `try` block of the address branch (src/main.py lines 185-193):
fetch the balance, fetch the signatures, then build the result, computing
`(bal or 0) / 1_000_000_000` before the comprehension (source order of the
dict literal). -/
def addressBody (env : SearchEnv) (qs : String) : Except PyErr SearchResult :=
  match env.getBalance qs with
  | .error e => .error e
  | .ok bal =>
    match env.getSignaturesForAddress qs with
    | .error e => .error e
    | .ok sigs =>
      match jToInt (pyOr bal (Json.num 0)) with
      | .error e => .error e
      | .ok balI =>
        match pyIter (pyOr sigs (Json.arr [])) with
        | .error e => .error e
        | .ok sigList =>
          match listGetSigs sigList with
          | .error e => .error e
          | .ok signatures => .ok (.addressR qs ((balI : Rat) / 1000000000) signatures)

/-- The address branch of `search` (src/main.py lines 184-195): an
`HTTPException` inside the body is replaced by the 404 `NotFoundError`. -/
def addressSearch (env : SearchEnv) (qs : String) : Except PyErr SearchResult :=
  match addressBody env qs with
  | .ok v => .ok v
  | .error e => if e.isHttp then .error .notFound else .error e

/-- Embedding of the `search` route handler (src/main.py lines 160-195):
strip the query, take the digit-only slot branch first, then the 80-100
character signature branch (falling through to the address branch when the
fetch failed or returned a falsy transaction), then the address branch. -/
def search (env : SearchEnv) (q : String) : Except PyErr SearchResult :=
  let qs := pyStrip q
  if pyIsDigitStr qs then slotSearch env qs
  else if 80 ≤ strLen qs ∧ strLen qs ≤ 100 then
    match catchHttp (env.getTransaction qs) with
    | .error e => .error e
    | .ok tx => if pyTruthy tx then sigBuild qs tx else addressSearch env qs
  else addressSearch env qs

/-! ## Helper predicates and projections used by the claim statements -/

/-- Well-formedness of a `getBlock` call result, as assumed by the block data
model: either the call fails with an `HTTPException`, or it returns null, or
it returns an object whose `transactions` field, when present, is a list. -/
def blockRespOk (r : Except PyErr Json) : Bool :=
  match r with
  | .error e => e.isHttp
  | .ok Json.null => true
  | .ok (Json.obj fs) =>
    match lookupField fs "transactions" with
    | none => true
    | some (Json.arr _) => true
    | some _ => false
  | .ok b => !pyTruthy b

/-- The transaction count the specification promises for a slot search: the
length of the transaction list of the fetched block, or 0 when the block is
absent (fetch failed, null, or empty). -/
def claimedTxCount (r : Except PyErr Json) : Nat :=
  match r with
  | .ok (Json.obj fs) =>
    match lookupField fs "transactions" with
    | some (Json.arr xs) => xs.length
    | _ => 0
  | _ => 0

/-- Well-formedness of one performance sample: an object whose
`numTransactions` and `samplePeriodSecs` fields, when present, are numbers
(or booleans, which Python treats as integers). -/
def sampleOk : Json → Bool
  | .obj fs =>
    (match lookupField fs "numTransactions" with
     | none => true
     | some (.num _) => true
     | some (.bool _) => true
     | some _ => false) &&
    (match lookupField fs "samplePeriodSecs" with
     | none => true
     | some (.num _) => true
     | some (.bool _) => true
     | some _ => false)
  | _ => false

/-- Well-formedness of a performance-sample list. -/
def samplesWF (ss : List Json) : Bool := ss.all sampleOk

/-- Well-formedness of one summed field of a sample: object whose field, when
present, is a number or boolean. -/
def fieldIntOk (s : Json) (key : String) : Bool :=
  match s with
  | .obj fs =>
    match lookupField fs key with
    | none => true
    | some (.num _) => true
    | some (.bool _) => true
    | some _ => false
  | _ => false

/-- The integer value of a field of a sample, with the source default 0. -/
def jFieldInt (s : Json) (key : String) : Int :=
  match s with
  | .obj fs =>
    match lookupField fs key with
    | some (.num n) => n
    | some (.bool b) => if b then 1 else 0
    | _ => 0
  | _ => 0

/-- Sum of `numTransactions` over a sample list. -/
def txSum (ss : List Json) : Int :=
  (ss.map (fun s => jFieldInt s "numTransactions")).sum

/-- Sum of `samplePeriodSecs` over a sample list. -/
def secsSum (ss : List Json) : Int :=
  (ss.map (fun s => jFieldInt s "samplePeriodSecs")).sum

/-- The signature value `s.get("signature")` extracted from a listing entry
(null when the entry is not an object). -/
def feedSigOf (s : Json) : Json :=
  match Json.pyGet s "signature" with
  | .ok v => v
  | .error _ => Json.null

/-- The feed item a listing entry produces, none when the iteration skips
the entry or raises. -/
def feedItemOf (env : FeedEnv) (s : Json) : Option FeedItem :=
  match feedStep env s with
  | .ok o => o
  | .error _ => none

/-- The transaction value the detail fetch returns for a listing entry. -/
def txValOf (env : FeedEnv) (s : Json) : Json :=
  match env.getTransaction (feedSigOf s) with
  | .ok v => v
  | .error _ => Json.null

/-- Well-formedness of a fetched transaction as assumed by the feed loop: a
falsy value (skipped), or an object whose truthy `meta` is an object whose
`fee` field, when present, is a number or boolean. -/
def feedTxOk : Json → Bool
  | .obj fs =>
    (match lookupField fs "meta" with
     | none => true
     | some m =>
       if pyTruthy m then
         match m with
         | .obj mfs =>
           (match lookupField mfs "fee" with
            | none => true
            | some (.num _) => true
            | some (.bool _) => true
            | some _ => false)
         | _ => false
       else true)
  | j => !pyTruthy j

/-! ## Basic lemmas -/

theorem rhe_intCast (n : Int) : rhe (n : Rat) = n := by
  unfold rhe
  norm_num [Rat.num_intCast, Rat.den_intCast, Int.fdiv_one]

theorem pow10_nine : pow10 9 = 1000000000 := by
  norm_num [pow10]

theorem pyRound_intCast_div (f : Int) :
    pyRound ((f : Rat) / 1000000000) 9 = (f : Rat) / 1000000000 := by
  unfold pyRound
  rw [pow10_nine]
  have h : ((f : Rat) / 1000000000) * 1000000000 = (f : Rat) := by
    rw [div_mul_eq_mul_div]
    norm_num
  rw [h, rhe_intCast]

theorem lookupField_some_any {fs : List (String × Json)} {k : String} {v : Json}
    (h : lookupField fs k = some v) : fs.any (fun kv => kv.1 = k) = true := by
  induction fs with
  | nil => simp [lookupField] at h
  | cons p rest ih =>
    simp only [lookupField] at h
    by_cases hk : p.1 = k
    · simp [hk]
    · simp only [hk, if_false] at h
      simp [ih h, hk]

theorem lookupField_none_any {fs : List (String × Json)} {k : String}
    (h : lookupField fs k = none) : fs.any (fun kv => kv.1 = k) = false := by
  induction fs with
  | nil => simp
  | cons p rest ih =>
    simp only [lookupField] at h
    by_cases hk : p.1 = k
    · simp [hk] at h
    · simp only [hk, if_false] at h
      simp [ih h, hk]

theorem statusOf_ok_cases (tx : Json) (s : String) (h : statusOf tx = .ok s) :
    s = "Success" ∨ s = "Error" := by
  unfold statusOf at h
  split at h
  · simp at h
  · split at h
    · simp at h
    · simp only [Except.ok.injEq] at h
      subst h
      split <;> simp

/-! ## Claim theorems -/

/-- C9: for every lamport fee f carried in a transaction meta, the fee value
exposed to callers equals round(f / 1_000_000_000, 9) in both the
recent-transactions feed and the search signature result, and for f = 0 the
value is exactly 0. -/
theorem fee_round_trip (f : Int) :
    fee_sol_feed f = pyRound ((f : Rat) / 1000000000) 9 ∧
    fee_sol_search f = pyRound ((f : Rat) / 1000000000) 9 ∧
    fee_sol_feed 0 = 0 ∧ fee_sol_search 0 = 0 := by
  refine ⟨rfl, ?_, ?_, ?_⟩
  · rw [pyRound_intCast_div]
    rfl
  · show pyRound (((0 : Int) : Rat) / 1000000000) 9 = 0
    rw [pyRound_intCast_div]
    norm_num
  · show (((0 : Int) : Rat) / 1000000000) = 0
    norm_num

/-- C3 (code bug): when both getBlockHeight calls return an absent value,
the stats computation raises a TypeError (None - 0) instead of treating the
absent values as 0; the whole request fails with a 500. -/
theorem stats_both_heights_absent_crash :
    solana_stats ⟨.ok (Json.num 1), .ok (Json.arr []), .ok (Json.obj []),
      .ok Json.null, .ok Json.null⟩ = .error .typeError := rfl

/-- C8 (counterexample): for a raw transaction structure missing all expected
fields (the empty dict), the labeler returns "Success", not the claimed
fallback "Transaction". -/
theorem program_label_missing_fields_counterexample :
    _program_label (Json.obj []) = "Success" ∧
    _program_label (Json.obj []) ≠ "Transaction" := by
  exact ⟨rfl, by decide⟩

/-- C8 (amended): the fallback label "Transaction" is returned exactly when
field access itself fails; in particular for every input that is not a dict.
A dict merely missing the expected fields yields "Success" instead. -/
theorem program_label_non_dict_fallback (tx : Json) (h : tx.isObj = false) :
    _program_label tx = "Transaction" := by
  cases tx <;>
    simp_all [_program_label, labelBody, progOfInstr, Json.getD, Json.isObj]

theorem program_label_non_dict_fallback_witness :
    Json.isObj Json.null = false ∧ _program_label Json.null = "Transaction" :=
  ⟨rfl, program_label_non_dict_fallback Json.null rfl⟩

/-- C7: on every input value, the labeler terminates with either the literal
"Success", "Error" or "Transaction", or a program-identifier string
extracted from the input by the instruction inspection. -/
theorem program_label_range (tx : Json) :
    _program_label tx = "Success" ∨ _program_label tx = "Error" ∨
    _program_label tx = "Transaction" ∨
    progOfInstr tx = .ok (some (_program_label tx)) := by
  unfold _program_label labelBody
  cases h : progOfInstr tx with
  | error e => simp
  | ok o =>
    cases o with
    | some s => simp
    | none =>
      cases h2 : statusOf tx with
      | error e => simp
      | ok s =>
        rcases statusOf_ok_cases tx s h2 with rfl | rfl
        · simp
        · simp

/-- C5: through the RPC client, a well-formed response carrying an explicit
error field fails the call with the upstream error payload, and otherwise
the call returns the result field of the response, or null when that field
is missing. -/
theorem rpc_call_contract (fields : List (String × Json)) :
    (∀ payload, lookupField fields "error" = some payload →
      rpc_call (.success (Json.obj fields)) = .error (.rpcError payload)) ∧
    (lookupField fields "error" = none →
      rpc_call (.success (Json.obj fields)) =
        .ok ((lookupField fields "result").getD Json.null)) := by
  constructor
  · intro payload h
    simp only [rpc_call, pyContains, lookupField_some_any h, pyGetItemStr, h]
  · intro h
    simp only [rpc_call, pyContains, lookupField_none_any h, Json.getD]

theorem rpc_call_contract_witness :
    rpc_call (.success (Json.obj [("error", Json.num 7)])) =
      .error (.rpcError (Json.num 7)) ∧
    rpc_call (.success (Json.obj [("jsonrpc", Json.str "2.0")])) = .ok Json.null :=
  ⟨(rpc_call_contract _).1 _ rfl, (rpc_call_contract _).2 rfl⟩

theorem sampleOk_fieldIntOk {s : Json} (h : sampleOk s = true) :
    fieldIntOk s "numTransactions" = true ∧ fieldIntOk s "samplePeriodSecs" = true := by
  cases s <;> simp_all [sampleOk, fieldIntOk]

theorem sumField_eq (key : String) :
    ∀ ss : List Json, (∀ s ∈ ss, fieldIntOk s key = true) →
    sumField ss key = .ok ((ss.map (fun s => jFieldInt s key)).sum) := by
  intro ss
  induction ss with
  | nil => intro _; rfl
  | cons s rest ih =>
    intro hall
    have hs := hall s (by simp)
    have hrest : ∀ x ∈ rest, fieldIntOk x key = true := fun x hx => hall x (by simp [hx])
    cases s with
    | obj fs =>
      cases hl : lookupField fs key with
      | none =>
        simp [sumField, Json.getD, hl, jToInt, ih hrest, jFieldInt]
      | some v =>
        cases v <;>
          simp_all [sumField, Json.getD, hl, jToInt, jFieldInt, fieldIntOk, ih hrest]
    | null => simp [fieldIntOk] at hs
    | bool b => simp [fieldIntOk] at hs
    | num n => simp [fieldIntOk] at hs
    | str s => simp [fieldIntOk] at hs
    | arr xs => simp [fieldIntOk] at hs

/-- C2: for a well-formed performance-sample sequence, the tps value is
round(sum(numTransactions) / sum(samplePeriodSecs), 2) whenever the sequence
is non-empty with non-zero total seconds, and the tps value is absent
exactly when the sequence is empty or the total seconds are zero. -/
theorem stats_tps_spec (ss : List Json) (hwf : samplesWF ss = true) :
    (ss ≠ [] → secsSum ss ≠ 0 →
      tpsOf (Json.arr ss) =
        .ok (some (pyRound ((txSum ss : Rat) / (secsSum ss : Rat)) 2))) ∧
    (tpsOf (Json.arr ss) = .ok none ↔ ss = [] ∨ secsSum ss = 0) := by
  have hall : ∀ s ∈ ss, sampleOk s = true := by
    intro s hsi
    exact List.all_eq_true.mp hwf s hsi
  have h1 : ∀ s ∈ ss, fieldIntOk s "numTransactions" = true :=
    fun s hsi => (sampleOk_fieldIntOk (hall s hsi)).1
  have h2 : ∀ s ∈ ss, fieldIntOk s "samplePeriodSecs" = true :=
    fun s hsi => (sampleOk_fieldIntOk (hall s hsi)).2
  have hsum1 := sumField_eq "numTransactions" ss h1
  have hsum2 := sumField_eq "samplePeriodSecs" ss h2
  cases ss with
  | nil =>
    constructor
    · intro hne
      exact absurd rfl hne
    · simp [tpsOf, pyOr, pyTruthy]
  | cons s rest =>
    have htr : pyTruthy (Json.arr (s :: rest)) = true := by simp [pyTruthy]
    constructor
    · intro _ hsecs
      simp only [tpsOf, pyOr, htr, if_true, pyIter, hsum1, hsum2, txSum, secsSum]
      rw [if_pos]
      exact hsecs
    · by_cases hsecs : secsSum (s :: rest) = 0
      · simp only [tpsOf, pyOr, htr, if_true, pyIter, hsum1, hsum2, txSum, secsSum]
        simp [hsecs, secsSum]
      · simp only [tpsOf, pyOr, htr, if_true, pyIter, hsum1, hsum2, txSum, secsSum]
        simp [hsecs, secsSum]

theorem stats_tps_spec_witness :
    let ss : List Json :=
      [Json.obj [("numTransactions", Json.num 100), ("samplePeriodSecs", Json.num 60)],
       Json.obj [("numTransactions", Json.num 50), ("samplePeriodSecs", Json.num 30)]]
    (ss ≠ [] → secsSum ss ≠ 0 →
      tpsOf (Json.arr ss) =
        .ok (some (pyRound ((txSum ss : Rat) / (secsSum ss : Rat)) 2))) ∧
    (tpsOf (Json.arr ss) = .ok none ↔ ss = [] ∨ secsSum ss = 0) :=
  stats_tps_spec _ (by decide)

theorem slotSearch_spec (env : SearchEnv) (qs : String)
    (hb : blockRespOk (env.getBlock (strToNat qs)) = true) :
    slotSearch env qs =
      .ok (.slotR (strToNat qs) (claimedTxCount (env.getBlock (strToNat qs)))) := by
  unfold slotSearch
  cases hr : env.getBlock (strToNat qs) with
  | error e =>
    rw [hr] at hb
    simp only [blockRespOk] at hb
    simp [catchHttp, hb, pyTruthy, claimedTxCount, hr]
  | ok b =>
    rw [hr] at hb
    cases b with
    | null => simp [catchHttp, pyTruthy, claimedTxCount, hr]
    | obj fs =>
      cases fs with
      | nil => simp [catchHttp, pyTruthy, claimedTxCount, hr, lookupField]
      | cons p rest =>
        have htr : pyTruthy (Json.obj (p :: rest)) = true := by simp [pyTruthy]
        cases hl : lookupField (p :: rest) "transactions" with
        | none =>
          simp [catchHttp, htr, Json.getD, hl, pyLen, claimedTxCount, hr]
        | some v =>
          cases v <;>
            simp_all [blockRespOk, catchHttp, htr, Json.getD, hl, pyLen,
              claimedTxCount, hr]
    | bool v =>
      simp only [blockRespOk] at hb
      simp_all [catchHttp, pyTruthy, claimedTxCount, hr]
    | num n =>
      simp only [blockRespOk] at hb
      simp_all [catchHttp, pyTruthy, claimedTxCount, hr]
    | str s =>
      simp only [blockRespOk] at hb
      simp_all [catchHttp, pyTruthy, claimedTxCount, hr]
    | arr xs =>
      simp only [blockRespOk] at hb
      simp_all [catchHttp, pyTruthy, claimedTxCount, hr]

/-- C1: a query whose trimmed form is all decimal digits is always classified
as a slot (never as a signature or address), even at length 80-100, and the
returned transaction count is the length of the transaction list of the
fetched block, or 0 when the block is absent. -/
theorem search_digit_slot (env : SearchEnv) (q : String)
    (hd : pyIsDigitStr (pyStrip q) = true)
    (hb : blockRespOk (env.getBlock (strToNat (pyStrip q))) = true) :
    search env q =
      .ok (.slotR (strToNat (pyStrip q)) (claimedTxCount (env.getBlock (strToNat (pyStrip q))))) := by
  unfold search
  simp only [hd, if_true]
  exact slotSearch_spec env (pyStrip q) hb

theorem search_digit_slot_witness :
    search
      ⟨fun _ => .ok (Json.obj [("transactions", Json.arr [Json.null, Json.null])]),
       fun _ => .ok Json.null, fun _ => .ok Json.null, fun _ => .ok Json.null⟩
      "1234567890123456789012345678901234567890123456789012345678901234567890123456789012345" =
    .ok (.slotR
      (strToNat (pyStrip "1234567890123456789012345678901234567890123456789012345678901234567890123456789012345"))
      (claimedTxCount (.ok (Json.obj [("transactions", Json.arr [Json.null, Json.null])])))) :=
  search_digit_slot _ _ (by decide) (by decide)

/-- C4: when the signature-step getTransaction call fails with an HTTP
error, search falls through to the address classification instead of
failing; and a failing getBalance or getSignaturesForAddress call in the
address step makes the whole search fail with the 404 NotFoundError rather
than propagating the upstream error. -/
theorem search_error_policy (env : SearchEnv) (q : String) (e : PyErr)
    (hd : pyIsDigitStr (pyStrip q) = false)
    (hlo : 80 ≤ strLen (pyStrip q)) (hhi : strLen (pyStrip q) ≤ 100)
    (htx : env.getTransaction (pyStrip q) = .error e) (hh : e.isHttp = true) :
    search env q = addressSearch env (pyStrip q) ∧
    (∀ e2, env.getBalance (pyStrip q) = .error e2 → e2.isHttp = true →
      search env q = .error .notFound) ∧
    (∀ b e3, env.getBalance (pyStrip q) = .ok b →
      env.getSignaturesForAddress (pyStrip q) = .error e3 → e3.isHttp = true →
      search env q = .error .notFound) := by
  have hmain : search env q = addressSearch env (pyStrip q) := by
    unfold search
    simp only [hd, Bool.false_eq_true, if_false]
    rw [if_pos ⟨hlo, hhi⟩, htx]
    simp [catchHttp, hh, pyTruthy]
  refine ⟨hmain, ?_, ?_⟩
  · intro e2 hbal hh2
    rw [hmain]
    unfold addressSearch addressBody
    rw [hbal]
    simp [hh2]
  · intro b e3 hbal hsig hh3
    rw [hmain]
    unfold addressSearch addressBody
    rw [hbal, hsig]
    simp [hh3]

theorem search_error_policy_witness :
    let env0 : SearchEnv :=
      ⟨fun _ => .ok Json.null, fun _ => .error (.transport "t"),
       fun _ => .error (.transport "b"), fun _ => .ok (Json.arr [])⟩
    let q0 := "aaaaaaaaaaaaaaaaaaaaaaaaaaaaaaaaaaaaaaaaaaaaaaaaaaaaaaaaaaaaaaaaaaaaaaaaaaaaaaaa"
    search env0 q0 = addressSearch env0 (pyStrip q0) ∧
    (∀ e2, env0.getBalance (pyStrip q0) = .error e2 → e2.isHttp = true →
      search env0 q0 = .error .notFound) ∧
    (∀ b e3, env0.getBalance (pyStrip q0) = .ok b →
      env0.getSignaturesForAddress (pyStrip q0) = .error e3 → e3.isHttp = true →
      search env0 q0 = .error .notFound) :=
  search_error_policy _ _ (.transport "t") (by decide) (by decide) (by decide) rfl rfl

/-- C10: when the trimmed query has signature length (80-100, not digit
only) and getTransaction succeeds but returns an absent (falsy)
transaction, search does not build a signature result: it proceeds to the
address classification exactly as when the fetch fails. -/
theorem search_absent_tx_falls_through (env : SearchEnv) (q : String) (t : Json)
    (hd : pyIsDigitStr (pyStrip q) = false)
    (hlo : 80 ≤ strLen (pyStrip q)) (hhi : strLen (pyStrip q) ≤ 100)
    (htx : env.getTransaction (pyStrip q) = .ok t) (hf : pyTruthy t = false) :
    search env q = addressSearch env (pyStrip q) := by
  unfold search
  simp only [hd, Bool.false_eq_true, if_false]
  rw [if_pos ⟨hlo, hhi⟩, htx]
  simp [catchHttp, hf]

theorem feedStep_isOk (env : FeedEnv) (s : Json) (hs : Json.isObj s = true)
    (henv : ∀ j, ∃ v, env.getTransaction j = .ok v ∧ feedTxOk v = true) :
    ∃ o, feedStep env s = .ok o := by
  cases s with
  | obj fs =>
    obtain ⟨v, hv, hwf⟩ := henv ((lookupField fs "signature").getD Json.null)
    have h1 : Json.pyGet (Json.obj fs) "signature" =
        .ok ((lookupField fs "signature").getD Json.null) := rfl
    unfold feedStep
    simp only [h1, hv]
    by_cases htv : pyTruthy v = true
    · cases v with
      | obj vfs =>
        simp only [htv, if_true]
        cases hm : lookupField vfs "meta" with
        | none =>
          simp only [Json.pyGet, Json.getD, hm, Option.getD_none, pyOr, pyTruthy,
            lookupField, jToInt]
          exact ⟨_, rfl⟩
        | some m =>
          by_cases htm : pyTruthy m = true
          · cases m with
            | obj mfs =>
              cases hf : lookupField mfs "fee" with
              | none =>
                simp only [Json.pyGet, Json.getD, hm, Option.getD_some, pyOr, htm,
                  if_true, hf, Option.getD_none, jToInt]
                exact ⟨_, rfl⟩
              | some fv =>
                cases fv with
                | num n =>
                  simp only [Json.pyGet, Json.getD, hm, Option.getD_some, pyOr, htm,
                    if_true, hf, jToInt]
                  exact ⟨_, rfl⟩
                | bool b =>
                  simp only [Json.pyGet, Json.getD, hm, Option.getD_some, pyOr, htm,
                    if_true, hf, jToInt]
                  exact ⟨_, rfl⟩
                | null => simp [feedTxOk, hm, htm, hf] at hwf
                | str t => simp [feedTxOk, hm, htm, hf] at hwf
                | arr xs => simp [feedTxOk, hm, htm, hf] at hwf
                | obj os => simp [feedTxOk, hm, htm, hf] at hwf
            | null => simp [pyTruthy] at htm
            | bool b => simp [feedTxOk, hm, htm] at hwf
            | num n => simp [feedTxOk, hm, htm] at hwf
            | str t => simp [feedTxOk, hm, htm] at hwf
            | arr xs => simp [feedTxOk, hm, htm] at hwf
          · have htm2 : pyTruthy m = false := by
              cases h : pyTruthy m
              · rfl
              · exact absurd h htm
            simp only [Json.pyGet, Json.getD, hm, Option.getD_some, pyOr, htm2,
              Bool.false_eq_true, if_false, lookupField, Option.getD_none, jToInt]
            exact ⟨_, rfl⟩
      | null => simp [pyTruthy] at htv
      | bool b => simp_all [feedTxOk, pyTruthy]
      | num n => simp_all [feedTxOk]
      | str t => simp_all [feedTxOk]
      | arr xs => simp_all [feedTxOk]
    · have htv2 : pyTruthy v = false := by
        cases h : pyTruthy v
        · rfl
        · exact absurd h htv
      exact ⟨none, by simp [htv2]⟩
  | null => simp [Json.isObj] at hs
  | bool b => simp [Json.isObj] at hs
  | num n => simp [Json.isObj] at hs
  | str t => simp [Json.isObj] at hs
  | arr xs => simp [Json.isObj] at hs

theorem feedStep_eq_itemOf (env : FeedEnv) (s : Json) (hs : Json.isObj s = true)
    (henv : ∀ j, ∃ v, env.getTransaction j = .ok v ∧ feedTxOk v = true) :
    feedStep env s = .ok (feedItemOf env s) := by
  obtain ⟨o, ho⟩ := feedStep_isOk env s hs henv
  rw [ho]
  unfold feedItemOf
  rw [ho]

theorem feedStep_some_sig (env : FeedEnv) (s : Json) (it : FeedItem)
    (h : feedStep env s = .ok (some it)) : it.sig = feedSigOf s := by
  unfold feedStep at h
  cases hsig : Json.pyGet s "signature" with
  | error e => simp [hsig] at h
  | ok signature =>
    simp only [hsig] at h
    cases htx : env.getTransaction signature with
    | error e => simp [htx] at h
    | ok tx =>
      simp only [htx] at h
      by_cases ht : pyTruthy tx = true
      · simp only [ht, if_true] at h
        cases h0 : Json.pyGet tx "meta" with
        | error e => simp [h0] at h
        | ok meta0 =>
          simp only [h0] at h
          cases h1 : Json.getD (pyOr meta0 (Json.obj [])) "fee" (Json.num 0) with
          | error e => simp [h1] at h
          | ok feeJ =>
            simp only [h1] at h
            cases h2 : jToInt feeJ with
            | error e => simp [h2] at h
            | ok feeI =>
              simp only [h2] at h
              cases h3 : Json.pyGet tx "slot" with
              | error e => simp [h3] at h
              | ok slotJ =>
                simp only [h3, Except.ok.injEq, Option.some.injEq] at h
                subst h
                simp [feedSigOf, hsig]
      · have ht2 : pyTruthy tx = false := by
          cases hb : pyTruthy tx
          · rfl
          · exact absurd hb ht
        simp [ht2] at h

theorem feedStep_congr (env env' : FeedEnv) (s : Json) (hs : Json.isObj s = true)
    (hag : env'.getTransaction (feedSigOf s) = env.getTransaction (feedSigOf s)) :
    feedStep env' s = feedStep env s := by
  cases s with
  | obj fs =>
    have h1 : Json.pyGet (Json.obj fs) "signature" =
        .ok ((lookupField fs "signature").getD Json.null) := rfl
    have h2 : feedSigOf (Json.obj fs) = (lookupField fs "signature").getD Json.null := by
      simp [feedSigOf, h1]
    rw [h2] at hag
    unfold feedStep
    simp only [h1, hag]
  | null => simp [Json.isObj] at hs
  | bool b => simp [Json.isObj] at hs
  | num n => simp [Json.isObj] at hs
  | str t => simp [Json.isObj] at hs
  | arr xs => simp [Json.isObj] at hs

theorem feedLoop_eq_filterMap (env : FeedEnv) :
    ∀ front : List Json, (∀ s ∈ front, Json.isObj s = true) →
    (∀ j, ∃ v, env.getTransaction j = .ok v ∧ feedTxOk v = true) →
    feedLoop env front = .ok (front.filterMap (feedItemOf env)) := by
  intro front
  induction front with
  | nil => intro _ _; rfl
  | cons s rest ih =>
    intro hobj henv
    have hstep := feedStep_eq_itemOf env s (hobj s (by simp)) henv
    have hrest := ih (fun x hx => hobj x (by simp [hx])) henv
    unfold feedLoop
    rw [hstep]
    cases h : feedItemOf env s with
    | none => simp [hrest, List.filterMap_cons, h]
    | some item => simp [hrest, List.filterMap_cons, h]

theorem feedLoop_congr (env env' : FeedEnv) :
    ∀ front : List Json, (∀ s ∈ front, Json.isObj s = true) →
    (∀ s ∈ front, env'.getTransaction (feedSigOf s) = env.getTransaction (feedSigOf s)) →
    feedLoop env' front = feedLoop env front := by
  intro front
  induction front with
  | nil => intro _ _; rfl
  | cons s rest ih =>
    intro hobj hag
    have hstep := feedStep_congr env env' s (hobj s (by simp)) (hag s (by simp))
    have hrest := ih (fun x hx => hobj x (by simp [hx]))
      (fun x hx => hag x (by simp [hx]))
    unfold feedLoop
    rw [hstep, hrest]

theorem sublist_map_filterMap {α β γ : Type} (f : α → Option β) (g : β → γ)
    (h : α → γ) :
    ∀ l : List α, (∀ a ∈ l, ∀ b, f a = some b → g b = h a) →
    List.Sublist ((l.filterMap f).map g) (l.map h) := by
  intro l
  induction l with
  | nil => intro _; simp
  | cons a l ih =>
    intro hl
    have hrest := ih (fun x hx b hb => hl x (by simp [hx]) b hb)
    cases hf : f a with
    | none =>
      simp only [List.filterMap_cons, hf, List.map_cons]
      exact List.Sublist.cons _ hrest
    | some b =>
      simp only [List.filterMap_cons, hf, List.map_cons]
      rw [hl a (by simp) b hf]
      exact List.Sublist.cons₂ _ hrest

/-- C6: under a well-formed listing and non-failing detail fetches, the feed
returns exactly the items built from the first `limit` listing entries in
listing order (hence at most `limit` items, order preserved, entries whose
fetched transaction is absent silently skipped), the output depends on the
detail oracle only at the first `limit` signatures (at most `limit` detail
fetches, none when the listing is empty), and an empty listing produces the
empty item list. -/
theorem recent_transactions_contract (env : FeedEnv) (limit : Nat)
    (sigs : List Json) (hl1 : 1 ≤ limit) (hl2 : limit ≤ 20)
    (hresp : env.signaturesResp = .ok (Json.arr sigs))
    (hobj : ∀ s ∈ sigs, Json.isObj s = true)
    (henv : ∀ j, ∃ v, env.getTransaction j = .ok v ∧ feedTxOk v = true) :
    recent_transactions env limit = .ok ((sigs.take limit).filterMap (feedItemOf env)) ∧
    ((sigs.take limit).filterMap (feedItemOf env)).length ≤ limit ∧
    List.Sublist (((sigs.take limit).filterMap (feedItemOf env)).map FeedItem.sig)
      ((sigs.take limit).map feedSigOf) ∧
    (∀ s ∈ sigs.take limit, pyTruthy (txValOf env s) = false →
      feedItemOf env s = none) ∧
    (sigs = [] → recent_transactions env limit = .ok []) ∧
    (∀ env' : FeedEnv, env'.signaturesResp = env.signaturesResp →
      (∀ s ∈ sigs.take limit,
        env'.getTransaction (feedSigOf s) = env.getTransaction (feedSigOf s)) →
      recent_transactions env' limit = recent_transactions env limit) := by
  have hobjTake : ∀ s ∈ sigs.take limit, Json.isObj s = true :=
    fun s hx => hobj s (List.mem_of_mem_take hx)
  have hmain : recent_transactions env limit =
      .ok ((sigs.take limit).filterMap (feedItemOf env)) := by
    unfold recent_transactions
    rw [hresp]
    cases sigs with
    | nil => simp [pyOr, pyTruthy]
    | cons s rest =>
      have htr : pyTruthy (Json.arr (s :: rest)) = true := by simp [pyTruthy]
      simp only [pyOr, htr, if_true, pySliceTake]
      exact feedLoop_eq_filterMap env _ hobjTake henv
  refine ⟨hmain, ?_, ?_, ?_, ?_, ?_⟩
  · calc ((sigs.take limit).filterMap (feedItemOf env)).length
        ≤ (sigs.take limit).length := List.length_filterMap_le _ _
      _ ≤ limit := List.length_take_le _ _
  · refine sublist_map_filterMap _ _ _ _ ?_
    intro a _ b hb
    have hstep : feedStep env a = .ok (feedItemOf env a) := by
      unfold feedItemOf
      cases h : feedStep env a with
      | ok o => rfl
      | error e =>
        exfalso
        obtain ⟨o, ho⟩ := feedStep_isOk env a
          (hobjTake a (by assumption)) henv
        rw [ho] at h
        cases h
    rw [hb] at hstep
    exact feedStep_some_sig env a b hstep
  · intro s hsm hfalsy
    have hs := hobjTake s hsm
    cases s with
    | obj fs =>
      obtain ⟨v, hv, _⟩ := henv ((lookupField fs "signature").getD Json.null)
      have h1 : Json.pyGet (Json.obj fs) "signature" =
          .ok ((lookupField fs "signature").getD Json.null) := rfl
      have h2 : feedSigOf (Json.obj fs) =
          (lookupField fs "signature").getD Json.null := by
        simp [feedSigOf, h1]
      have h3 : txValOf env (Json.obj fs) = v := by
        unfold txValOf
        rw [h2, hv]
      rw [h3] at hfalsy
      unfold feedItemOf feedStep
      simp only [h1, hv, hfalsy]
      simp
    | null => simp [Json.isObj] at hs
    | bool b => simp [Json.isObj] at hs
    | num n => simp [Json.isObj] at hs
    | str t => simp [Json.isObj] at hs
    | arr xs => simp [Json.isObj] at hs
  · intro hnil
    subst hnil
    simpa using hmain
  · intro env' hresp' hag
    have hmain2 : recent_transactions env' limit =
        .ok ((sigs.take limit).filterMap (feedItemOf env)) := by
      unfold recent_transactions
      rw [hresp', hresp]
      cases sigs with
      | nil => simp [pyOr, pyTruthy]
      | cons s rest =>
        have htr : pyTruthy (Json.arr (s :: rest)) = true := by simp [pyTruthy]
        simp only [pyOr, htr, if_true, pySliceTake]
        rw [feedLoop_congr env env' _ hobjTake hag]
        exact feedLoop_eq_filterMap env _ hobjTake henv
    rw [hmain2, hmain]

theorem recent_transactions_contract_witness :
    let env0 : FeedEnv :=
      ⟨.ok (Json.arr [Json.obj [("signature", Json.str "s1")],
                      Json.obj [("signature", Json.str "s2")]]),
       fun _ => .ok (Json.obj [("slot", Json.num 7)])⟩
    let sigs0 : List Json :=
      [Json.obj [("signature", Json.str "s1")], Json.obj [("signature", Json.str "s2")]]
    recent_transactions env0 1 = .ok ((sigs0.take 1).filterMap (feedItemOf env0)) ∧
    ((sigs0.take 1).filterMap (feedItemOf env0)).length ≤ 1 ∧
    List.Sublist (((sigs0.take 1).filterMap (feedItemOf env0)).map FeedItem.sig)
      ((sigs0.take 1).map feedSigOf) ∧
    (∀ s ∈ sigs0.take 1, pyTruthy (txValOf env0 s) = false →
      feedItemOf env0 s = none) ∧
    (sigs0 = [] → recent_transactions env0 1 = .ok []) ∧
    (∀ env' : FeedEnv, env'.signaturesResp = env0.signaturesResp →
      (∀ s ∈ sigs0.take 1,
        env'.getTransaction (feedSigOf s) = env0.getTransaction (feedSigOf s)) →
      recent_transactions env' 1 = recent_transactions env0 1) :=
  recent_transactions_contract _ 1 _ (by decide) (by decide) rfl (by decide)
    (fun _ => ⟨Json.obj [("slot", Json.num 7)], rfl, rfl⟩)

theorem search_absent_tx_falls_through_witness :
    search
      ⟨fun _ => .ok Json.null, fun _ => .ok Json.null,
       fun _ => .ok (Json.num 5), fun _ => .ok (Json.arr [])⟩
      "aaaaaaaaaaaaaaaaaaaaaaaaaaaaaaaaaaaaaaaaaaaaaaaaaaaaaaaaaaaaaaaaaaaaaaaaaaaaaaaa" =
      addressSearch
        ⟨fun _ => .ok Json.null, fun _ => .ok Json.null,
         fun _ => .ok (Json.num 5), fun _ => .ok (Json.arr [])⟩
        (pyStrip "aaaaaaaaaaaaaaaaaaaaaaaaaaaaaaaaaaaaaaaaaaaaaaaaaaaaaaaaaaaaaaaaaaaaaaaaaaaaaaaa") :=
  search_absent_tx_falls_through _ _ Json.null (by decide) (by decide) (by decide)
    rfl rfl
